import Mathlib

/-!
Verification of the `create` command workflow of the pr-commit-ai-agent
repository (`src/commands/create.ts`), shallowly embedded in Lean 4.

External effects (git subprocess results, GitHub CLI results, language-model
responses, interactive confirmations) are supplied through environment
records; the embedded functions reproduce the control flow, filtering and
state updates of the TypeScript source.
-/

namespace PrAgent

/-! ## JavaScript value model (results of `JSON.parse`) -/

/-- A JavaScript value as produced by `JSON.parse`. -/
inductive JValue where
  | null
  | bool (b : Bool)
  | num (n : Int)
  | str (s : String)
  | arr (elems : List JValue)
  | obj (fields : List (String × JValue))

/-- JavaScript falsiness of a value (`!v` in the source). -/
def jFalsy : JValue → Bool
  | JValue.null => true
  | JValue.bool b => !b
  | JValue.num n => n == 0
  | JValue.str s => s == ""
  | JValue.arr _ => false
  | JValue.obj _ => false

/-- JavaScript truthiness of a value. -/
def jTruthy (v : JValue) : Bool := !(jFalsy v)

/-- Whether `typeof v` is `'object'` in JavaScript (null, arrays and objects). -/
def jTypeofObject : JValue → Bool
  | JValue.null => true
  | JValue.arr _ => true
  | JValue.obj _ => true
  | _ => false

/-- Property access `v.k`: a field lookup on objects, `undefined` otherwise. -/
def jGetField (v : JValue) (k : String) : Option JValue :=
  match v with
  | JValue.obj fields => fields.lookup k
  | _ => none

/-- Truthiness of a possibly-`undefined` property (`none` models `undefined`). -/
def jTruthyOpt : Option JValue → Bool
  | none => false
  | some v => jTruthy v

/-- String content of a JSON string value (all call sites expect strings). -/
def jStringOf : JValue → String
  | JValue.str s => s
  | _ => ""

/-! ## String helpers (structural recursions mirroring the JS operations) -/

/-- Whether `pat` is an initial segment of `text`. -/
def startsWithChars : List Char → List Char → Bool
  | [], _ => true
  | _ :: _, [] => false
  | a :: as, b :: bs => a == b && startsWithChars as bs

/-- Whether `needle` occurs as a contiguous segment of the text. -/
def containsChars (needle : List Char) : List Char → Bool
  | [] => needle.isEmpty
  | c :: cs => startsWithChars needle (c :: cs) || containsChars needle cs

/-- JavaScript `haystack.includes(needle)`. -/
def strIncludes (haystack needle : String) : Bool :=
  containsChars needle.data haystack.data

/-- Whitespace for the purposes of `String.prototype.trim`. -/
def isWhitespaceChar (c : Char) : Bool :=
  c == ' ' || c == '\t' || c == '\n' || c == '\r'

/-- JavaScript `s.trim()`. -/
def strTrim (s : String) : String :=
  String.mk ((((s.data.dropWhile isWhitespaceChar).reverse).dropWhile isWhitespaceChar).reverse)

/-- Split a character list on a separator character, keeping empty groups,
as JavaScript `split` does. -/
def splitOnChar (sep : Char) (l : List Char) : List (List Char) :=
  l.foldr
    (fun ch acc =>
      match acc with
      | [] => [[ch]]
      | cur :: rest => if ch == sep then [] :: (cur :: rest) else (ch :: cur) :: rest)
    [[]]

/-- JavaScript `s.split(' ')`. -/
def jsSplitSpace (s : String) : List String :=
  (splitOnChar ' ' s.data).map String.mk

/-- Remove the first occurrence of `pat` from a character list
(JavaScript `s.replace(pat, '')` for a plain-string pattern). -/
def removeFirstOccur (pat : List Char) : List Char → List Char
  | [] => []
  | c :: cs =>
      if startsWithChars pat (c :: cs) then (c :: cs).drop pat.length
      else c :: removeFirstOccur pat cs

/-- JavaScript `s.replace(pat, '')` (first occurrence only). -/
def jsRemoveOnce (s pat : String) : String :=
  String.mk (removeFirstOccur pat.data s.data)

/-! ## Glob matching for git pathspec exclude patterns -/

/-- Fuel-bounded glob matcher supporting `*` wildcards. -/
def globMatchAux : Nat → List Char → List Char → Bool
  | 0, p, s => p.isEmpty && s.isEmpty
  | _ + 1, [], s => s.isEmpty
  | f + 1, '*' :: ps, [] => globMatchAux f ps []
  | f + 1, '*' :: ps, c :: cs =>
      globMatchAux f ps (c :: cs) || globMatchAux f ('*' :: ps) cs
  | f + 1, p :: ps, c :: cs => p == c && globMatchAux f ps cs
  | _ + 1, _ :: _, [] => false

/-- Whether a glob pattern matches a path. -/
def globMatch (pat path : String) : Bool :=
  globMatchAux (pat.data.length + path.data.length) pat.data path.data

/-- Whether any pattern of an exclude list matches the path
(the `:(exclude)` pathspecs passed to `git diff` / `git show`). -/
def excludedBy (pats : List String) (path : String) : Bool :=
  pats.any (fun pat => globMatch pat path)

/-! ## Data model -/

/-- A commit as read from `git log`. -/
structure Commit where
  hash : String
  message : String
deriving DecidableEq

/-- A single changed file inside a diff: its path and its hunk text. -/
structure RangeChange where
  path : String
  body : String
deriving DecidableEq

/-- Working-tree status as returned by `git.status()` (simple-git). -/
structure StatusResult where
  modified : List String
  created : List String
  deleted : List String
  renamed : List String
deriving DecidableEq

/-- An open pull request as returned by `gh pr list` (url, number, title). -/
structure PRInfo where
  url : String
  number : String
  title : String
deriving DecidableEq

/-! ## Constants from the source -/

/-- Git-notes namespace used for provenance marks. -/
def PR_AGENT_NOTE_NAMESPACE : String := "pr-agent"

/-- Fixed note body recorded on commits created or processed by the tool. -/
def PR_AGENT_NOTE_MESSAGE : String := "created-by-pr-agent"

/-- Files excluded from diff analysis (`ignoredFiles` in the source). -/
def ignoredFiles : List String :=
  ["pnpm-lock.yaml", "yarn.lock", "package-lock.json", "tsconfig.json"]

/-- Exclude patterns passed to the optimization-stage `git diff` and
`git show` calls: `ignoredFiles` plus generated/lock/type-config/image globs. -/
def optimizeExcludePatterns : List String :=
  ignoredFiles ++
    ["*.generated.*", "*.lock", "tsconfig.json", "tsconfig.*.json",
     "*.svg", "*.png", "*.jpg", "*.jpeg"]

/-- Exclude patterns passed to the `git show` call collecting recent changes
for an existing PR's description update. -/
def updateExcludePatterns : List String :=
  ignoredFiles ++ ["*.generated.*", "*.lock"]

/-! ## Provenance tracker -/

/-- `markCommitAsCreatedByTool`: writes the provenance note; the outcome of
the underlying `git notes add` call is `notesAdd`. A failure is logged and
swallowed, so the function itself returns `ok` in every case; the payload is
the hash whose note was actually written, if any. -/
def markCommitAsCreatedByTool (notesAdd : Except String Unit) (commitHash : String) :
    Except String (Option String) :=
  if commitHash = "" then Except.ok none
  else
    match notesAdd with
    | Except.ok _ => Except.ok (some commitHash)
    | Except.error _ => Except.ok none

/-- `isCommitCreatedByTool`: reads the provenance note (`notesShow` models
`git notes show`, `none` being a failed read, which the source maps to `''`)
and checks whether it contains the marker text. -/
def isCommitCreatedByTool (notesShow : String → Option String) (commitHash : String) : Bool :=
  if commitHash = "" then false
  else strIncludes ((notesShow commitHash).getD "") PR_AGENT_NOTE_MESSAGE

/-! ## Commit-message optimizer (`optimizeCommitMessages`) -/

/-- External inputs of one `optimizeCommitMessages` run. `none` on an
`Option`-typed git result models the underlying call throwing. -/
structure OptimizeEnv where
  upstreamBranch : String
  /-- `git.log({from: upstreamBranch, to: 'HEAD'})`, newest first. -/
  logCommits : Option (List Commit)
  /-- Gate: "Would you like to optimize your commit messages?". -/
  proceedWithOptimize : Bool
  /-- `git notes --ref pr-agent show <hash>` per hash. -/
  notesShow : String → Option String
  /-- `git rev-list --parents -n 1 <hash>` raw output per hash. -/
  revListRaw : String → Option String
  /-- Gate: "Continue with commit message optimization?". -/
  continueOptimization : Bool
  /-- Changed files between upstream and HEAD, before pathspec filtering. -/
  rangeChanges : Option (List RangeChange)
  /-- Changed files of the last commit itself, before pathspec filtering. -/
  commitChanges : Option (List RangeChange)
  /-- `JSON.parse` of the model's analysis response (`none` = parse throw). -/
  analysisParse : Option JValue
  /-- Gate: "Amend commit ... with the improved message?". -/
  amendConfirm : Bool
  /-- Outcome of `git commit --amend -m ...`. -/
  amendRawResult : Except String Unit
  /-- Outcome of `git notes --ref pr-agent add -m ... <hash>` per hash. -/
  notesAdd : String → Except String Unit

/-- Where an `optimizeCommitMessages` run ends. -/
inductive OptOutcome where
  | returnNoUpstream
  | errLog
  | returnNoCommits
  | skippedUserGate
  | skippedAlreadyProcessed
  | errRevList
  | skippedMerge
  | skippedUserCancel
  | errFullDiff
  | errOptimization
  | amendedOk
  | skippedUserAmend
  | skippedModel
deriving DecidableEq

/-- Observable effects of an `optimizeCommitMessages` run. -/
structure OptimizeResult where
  outcome : OptOutcome
  /-- Whether a completion request was issued. -/
  modelCalled : Bool
  /-- Whether `git commit --amend` was invoked. -/
  amendRan : Bool
  /-- Hashes passed to `markCommitAsCreatedByTool`. -/
  markAttempts : List String
  /-- Hashes whose note write actually persisted. -/
  notesWritten : List String
  /-- Final value of the session flag `commitsOptimizedInSession`. -/
  commitsOptimizedInSession : Bool
  /-- Paths included in the upstream..HEAD diff sent to the model. -/
  fullDiffPaths : List String
  /-- Paths included in the single-commit diff sent to the model. -/
  commitDiffPaths : List String
deriving DecidableEq

/-- A result for a run that stopped before calling the model. -/
def optStop (o : OptOutcome) : OptimizeResult :=
  { outcome := o, modelCalled := false, amendRan := false, markAttempts := [],
    notesWritten := [], commitsOptimizedInSession := false,
    fullDiffPaths := [], commitDiffPaths := [] }

/-- The analysis stage of `optimizeCommitMessages` (create.ts lines 687-827),
entered once all gates passed: diff collection with exclude pathspecs, the
model call, and the amend/mark bookkeeping. -/
def optimizeAnalyze (env : OptimizeEnv) (lastCommit : Commit) : OptimizeResult :=
  match env.rangeChanges with
  | none => optStop OptOutcome.errFullDiff
  | some rc =>
    let fullIncluded :=
      rc.filter (fun c => !excludedBy optimizeExcludePatterns c.path)
    let commitIncluded :=
      (env.commitChanges.getD []).filter
        (fun c => !excludedBy optimizeExcludePatterns c.path)
    let withDiffs : OptimizeResult → OptimizeResult := fun r =>
      { r with modelCalled := true,
               fullDiffPaths := fullIncluded.map RangeChange.path,
               commitDiffPaths := commitIncluded.map RangeChange.path }
    match env.analysisParse with
    | none => withDiffs (optStop OptOutcome.errOptimization)
    | some analysis =>
      if jFalsy analysis || !jTypeofObject analysis then
        withDiffs (optStop OptOutcome.errOptimization)
      else if jTruthyOpt (jGetField analysis "needsImprovement") then
        if env.amendConfirm then
          match env.amendRawResult with
          | Except.error _ =>
            { withDiffs (optStop OptOutcome.errOptimization) with
              amendRan := true }
          | Except.ok _ =>
            { withDiffs (optStop OptOutcome.amendedOk) with
              amendRan := true,
              markAttempts := ["HEAD"],
              notesWritten :=
                (((markCommitAsCreatedByTool (env.notesAdd "HEAD")
                    "HEAD").toOption).getD none).toList,
              commitsOptimizedInSession := true }
        else withDiffs (optStop OptOutcome.skippedUserAmend)
      else
        { withDiffs (optStop OptOutcome.skippedModel) with
          markAttempts := [lastCommit.hash],
          notesWritten :=
            (((markCommitAsCreatedByTool (env.notesAdd lastCommit.hash)
                lastCommit.hash).toOption).getD none).toList,
          commitsOptimizedInSession := true }

/-- Shallow embedding of `optimizeCommitMessages` (create.ts, lines 597-844):
merge/provenance gating, then the analysis stage. -/
def optimizeCommitMessages (env : OptimizeEnv) : OptimizeResult :=
  if env.upstreamBranch = "" then optStop OptOutcome.returnNoUpstream
  else
    match env.logCommits with
    | none => optStop OptOutcome.errLog
    | some commits =>
      if commits.length = 0 then optStop OptOutcome.returnNoCommits
      else if !env.proceedWithOptimize then optStop OptOutcome.skippedUserGate
      else
        match commits.head? with
        | none => optStop OptOutcome.returnNoCommits
        | some lastCommit =>
          if lastCommit.hash = "" then optStop OptOutcome.returnNoCommits
          else if isCommitCreatedByTool env.notesShow lastCommit.hash then
            optStop OptOutcome.skippedAlreadyProcessed
          else
            match env.revListRaw lastCommit.hash with
            | none => optStop OptOutcome.errRevList
            | some revList =>
              if revList = "" then optStop OptOutcome.errRevList
              else
                let parentHashes := jsSplitSpace (strTrim revList)
                if parentHashes.length = 0 then optStop OptOutcome.errRevList
                else if parentHashes.length > 2 then optStop OptOutcome.skippedMerge
                else if !env.continueOptimization then optStop OptOutcome.skippedUserCancel
                else optimizeAnalyze env lastCommit

/-! ## Uncommitted-changes handler (`handleUncommittedChanges`) -/

/-- External inputs of one `handleUncommittedChanges` run. -/
structure UncommittedEnv where
  status : StatusResult
  /-- Gate: "Analyze changes with AI to generate a commit message?". -/
  proceedWithAnalysis : Bool
  /-- Whether the per-file staged/unstaged `git diff` calls succeed. -/
  diffOk : String → Bool
  /-- Staged diff text per file. -/
  stagedDiff : String → String
  /-- Unstaged diff text per file. -/
  unstagedDiff : String → String
  /-- Gate: "Send changes to AI for commit message suggestion?". -/
  confirmAiRequest : Bool
  /-- `JSON.parse` of the model's commit-message response. -/
  commitParse : Option JValue
  /-- Gate: "Proceed with this commit?". -/
  commitConfirm : Bool
  /-- Outcome of `git add .`. -/
  addResult : Except String Unit
  /-- Outcome of `git commit`, carrying the new commit hash on success
  (simple-git reports `commitResult.commit`, possibly empty). -/
  commitResult : Except String String
  /-- Outcome of `git notes add` per hash. -/
  notesAdd : String → Except String Unit

/-- Where a `handleUncommittedChanges` run ends. `exit*` outcomes are the
`process.exit(0)` calls of the source. -/
inductive UncOutcome where
  | exitAnalysisDeclined
  | returnNoModified
  | exitAiDeclined
  | returnNoDiffs
  | exitParseFailed
  | exitCommitDeclined
  | exitStageFailed
  | exitCommitFailed
  | committedOk
deriving DecidableEq

/-- Observable effects of a `handleUncommittedChanges` run. -/
structure UncResult where
  outcome : UncOutcome
  /-- Files whose diffs were embedded in the prompt sent to the model. -/
  promptFiles : List String
  /-- Whether a completion request was issued. -/
  modelCalled : Bool
  /-- Whether `git add .` was invoked (staging the entire working tree). -/
  stagedAll : Bool
  /-- The commit message committed, when a commit was created. -/
  committedMessage : Option String
  /-- Hashes passed to `markCommitAsCreatedByTool`. -/
  markAttempts : List String
  /-- Final value of the session flag `commitsCreatedInSession`. -/
  commitsCreatedInSession : Bool
deriving DecidableEq

/-- A result for a run that stopped before calling the model. -/
def uncStop (o : UncOutcome) (files : List String) : UncResult :=
  { outcome := o, promptFiles := files, modelCalled := false, stagedAll := false,
    committedMessage := none, markAttempts := [], commitsCreatedInSession := false }

/-- The filter applied to `status.modified` before collecting per-file diffs
(create.ts line 409): keep truthy paths not in `ignoredFiles`. -/
def modifiedFilesOf (status : StatusResult) : List String :=
  status.modified.filter (fun e => e != "" && !ignoredFiles.contains e)

/-- Shallow embedding of `handleUncommittedChanges` (create.ts, lines
391-523): per-file diff collection over filtered modified paths, the model
call, `git add .`, commit creation and provenance marking. -/
def handleUncommittedChanges (env : UncommittedEnv) : UncResult :=
  if !env.proceedWithAnalysis then uncStop UncOutcome.exitAnalysisDeclined []
  else
    let modifiedFiles := modifiedFilesOf env.status
    if modifiedFiles.length = 0 then uncStop UncOutcome.returnNoModified []
    else
      -- files whose staged+unstaged diffs were pushed into the prompt;
      -- a file whose diff call throws is skipped with a warning
      let promptFiles := modifiedFiles.filter env.diffOk
      if !env.confirmAiRequest then uncStop UncOutcome.exitAiDeclined promptFiles
      else if promptFiles.length = 0 then uncStop UncOutcome.returnNoDiffs promptFiles
      else
        let called : UncResult → UncResult := fun r => { r with modelCalled := true }
        match env.commitParse with
        | none => called (uncStop UncOutcome.exitParseFailed promptFiles)
        | some commitData =>
          if !jTruthyOpt (jGetField commitData "commitMessage") then
            called (uncStop UncOutcome.exitParseFailed promptFiles)
          else
            let msg := jStringOf ((jGetField commitData "commitMessage").getD JValue.null)
            if !env.commitConfirm then
              called (uncStop UncOutcome.exitCommitDeclined promptFiles)
            else
              let staged : UncResult → UncResult := fun r => { r with stagedAll := true }
              match env.addResult with
              | Except.error _ =>
                staged (called (uncStop UncOutcome.exitStageFailed promptFiles))
              | Except.ok _ =>
                match env.commitResult with
                | Except.error _ =>
                  staged (called (uncStop UncOutcome.exitCommitFailed promptFiles))
                | Except.ok newHash =>
                  if newHash != "" then
                    { staged (called (uncStop UncOutcome.committedOk promptFiles)) with
                      committedMessage := some msg,
                      markAttempts := [newHash],
                      commitsCreatedInSession := true }
                  else
                    { staged (called (uncStop UncOutcome.committedOk promptFiles)) with
                      committedMessage := some msg }

/-! ## PR creation and update (`createAndPushPR`) -/

/-- External inputs of one `createAndPushPR` run. -/
structure PREnv where
  upstreamBranch : String
  /-- `git.log(['-1']).latest` (`none` = call failed or no commit). -/
  latestLog : Option Commit
  /-- `git.branch().current` (`none` = call failed). -/
  branchCurrent : Option String
  /-- `checkForExistingPR(currentBranch)`: an open PR with that head, if any. -/
  existingPR : Option PRInfo
  /-- Gate: "Do you want to update this existing PR?". -/
  updateExistingPR : Bool
  /-- Outcome of `git push origin <currentBranch>` on the existing-PR path. -/
  pushExistingResult : Except String Unit
  /-- `git.log({from: upstreamBranch, to: 'HEAD'})` on the existing-PR path
  (`none` = call failed, which the source treats as "assume new commits"). -/
  prBranchCommits : Option (List Commit)
  /-- Session flag written by the optimization stage. -/
  commitsOptimizedInSession : Bool
  /-- Session flag written by the uncommitted-changes stage. -/
  commitsCreatedInSession : Bool
  /-- Gate: "Would you like to update the PR description with the new changes?". -/
  updatePrDescription : Bool
  /-- `gh pr view` title/body (`none` = failed fetch, degraded silently). -/
  prViewDetails : Option (String × String)
  /-- Changed files of the latest commit, before pathspec filtering. -/
  updateRecentChanges : Option (List RangeChange)
  /-- `JSON.parse` of the model's title/description-update response. -/
  updateParse : Option JValue
  /-- Gate: "Apply the updated PR title and description?". -/
  confirmDescription : Bool
  /-- Outcome of `gh pr edit`. -/
  prEditResult : Except String Unit
  /-- Gate: "Generate PR details with AI based on your commits?". -/
  generatePrDetails : Bool
  /-- `git.branchLocal().all` (`none` = call failed, degraded to `[]`). -/
  localBranches : Option (List String)
  /-- Changed files between upstream and HEAD for the suggestion prompt
  (`none` = diff failed, degraded to an empty diff). -/
  prDiffChanges : Option (List RangeChange)
  /-- `JSON.parse` of the model's branch/title/description response. -/
  prParse : Option JValue
  /-- Gate: "Create PR with these details?". -/
  createPRConfirm : Bool
  /-- Gate: "Confirm creation of branch ...?". -/
  createBranchConfirm : Bool
  /-- Outcome of `git checkout -b <suggested>` (`checkoutLocalBranch`). -/
  checkoutResult : Except String Unit
  /-- Gate: "Push branch ... to remote repository?". -/
  pushConfirm : Bool
  /-- Outcome of the push on the new-PR path. -/
  pushNewResult : Except String Unit
  /-- Whether `gh --version` exits 0. -/
  ghAvailable : Bool
  /-- Whether `gh auth status` reports a login. -/
  ghAuthenticated : Bool
  /-- Gate: "Create GitHub PR using GitHub CLI?". -/
  createGhPrConfirm : Bool
  /-- Outcome of `gh pr create`. -/
  ghCreateResult : Except String Unit
  /-- `--draft` flag. -/
  draft : Bool

/-- Where a `createAndPushPR` run ends. -/
inductive PROutcome where
  | returnNoUpstream
  | errLatestCommit
  | errCurrentBranch
  | errPushExisting
  | doneUpdatedExisting
  | returnGenerateDeclined
  | errParsePR
  | returnCreateDeclined
  | returnBranchDeclined
  | errCheckout
  | returnPushDeclined
  | errPush
  | doneManual
  | doneCreated
  | donePushedNoNewPR
deriving DecidableEq

/-- Observable effects of a `createAndPushPR` run. -/
structure PRResult where
  outcome : PROutcome
  /-- Pushes performed or attempted: (remote, branch, set-upstream flag). -/
  pushes : List (String × String × Bool)
  /-- Local branch created and checked out (`checkoutLocalBranch`), if any. -/
  branchCreated : Option String
  /-- Whether the branch/title/description completion request was issued. -/
  suggestionModelCalled : Bool
  /-- Paths included in the upstream..HEAD diff embedded in that prompt. -/
  suggestionDiffPaths : List String
  /-- Parsed (branch, title, description) accepted from the model. -/
  acceptedSuggestion : Option (String × String × String)
  /-- PR created through `gh pr create`: (title, body, base). -/
  prCreated : Option (String × String × String)
  /-- PR edit applied through `gh pr edit`: (title, body). -/
  prEdited : Option (String × String)
  /-- Whether manual PR instructions were printed. -/
  manualPrinted : Bool
  /-- Whether the title/description-update completion request was issued. -/
  updateModelCalled : Bool
  /-- Whether the description-regeneration confirmation was offered. -/
  updateOffered : Bool
  /-- Paths included in the recent-changes diff of the update prompt. -/
  updateRecentPaths : List String
deriving DecidableEq

/-- A result for a run that stopped before any effect. -/
def prStop (o : PROutcome) : PRResult :=
  { outcome := o, pushes := [], branchCreated := none,
    suggestionModelCalled := false, suggestionDiffPaths := [],
    acceptedSuggestion := none, prCreated := none, prEdited := none,
    manualPrinted := false, updateModelCalled := false, updateOffered := false,
    updateRecentPaths := [] }

/-- The local branch names handed to the model as exclusions on the new-PR
path (create.ts lines 1168-1170): the trimmed `branchLocal` list, an empty
list when the call failed. -/
def localBranchNamesOf (env : PREnv) : List String :=
  (env.localBranches.getD []).map strTrim

/-- The suggestion-accepted base result on the new-PR path: the model was
called with `diffPaths` in the prompt and its (branch, title, description)
triple passed validation. -/
def prAccepted (o : PROutcome) (sugg title desc : String)
    (diffPaths : List String) : PRResult :=
  { prStop o with
    suggestionModelCalled := true,
    suggestionDiffPaths := diffPaths,
    acceptedSuggestion := some (sugg, title, desc) }

/-- The push-and-create tail of the new-PR path (create.ts lines 1278-1427):
push the chosen branch, then create the PR through the GitHub CLI or print
manual instructions. -/
def newPRPush (env : PREnv) (sugg title desc targetBranchName branchToPush : String)
    (created : Option String) (diffPaths : List String) : PRResult :=
  if !env.pushConfirm then
    { prAccepted PROutcome.returnPushDeclined sugg title desc diffPaths with
      branchCreated := created }
  else
    match env.existingPR with
    | some _ =>
      match env.pushNewResult with
      | Except.error _ =>
        { prAccepted PROutcome.errPush sugg title desc diffPaths with
          branchCreated := created,
          pushes := [("origin", branchToPush, false)] }
      | Except.ok _ =>
        { prAccepted PROutcome.donePushedNoNewPR sugg title desc diffPaths with
          branchCreated := created,
          pushes := [("origin", branchToPush, false)] }
    | none =>
      match env.pushNewResult with
      | Except.error _ =>
        { prAccepted PROutcome.errPush sugg title desc diffPaths with
          branchCreated := created,
          pushes := [("origin", branchToPush, true)] }
      | Except.ok _ =>
        let pushed : PRResult → PRResult := fun r =>
          { r with branchCreated := created,
                   pushes := [("origin", branchToPush, true)] }
        if !env.createGhPrConfirm then
          pushed { prAccepted PROutcome.doneManual sugg title desc diffPaths with
                   manualPrinted := true }
        else if !(env.ghAvailable && env.ghAuthenticated) then
          pushed { prAccepted PROutcome.doneManual sugg title desc diffPaths with
                   manualPrinted := true }
        else
          match env.ghCreateResult with
          | Except.ok _ =>
            pushed { prAccepted PROutcome.doneCreated sugg title desc diffPaths with
                     prCreated := some (title, desc, targetBranchName) }
          | Except.error _ =>
            pushed { prAccepted PROutcome.doneManual sugg title desc diffPaths with
                     manualPrinted := true }

/-- The new-PR path of `createAndPushPR` (create.ts lines 1146-1427), also
reached when updating an existing PR is declined: collect local branch names
as exclusions, diff upstream..HEAD with no exclude pathspecs, ask the model
for branch/title/description, then create the branch and push. -/
def newPRFlow (env : PREnv) (currentBranch : String) : PRResult :=
  if !env.generatePrDetails then prStop PROutcome.returnGenerateDeclined
  else
    -- diff from upstream to HEAD, with no exclude pathspecs
    let diffPaths := (env.prDiffChanges.getD []).map RangeChange.path
    match env.prParse with
    | none =>
      { prStop PROutcome.errParsePR with
        suggestionModelCalled := true, suggestionDiffPaths := diffPaths }
    | some prData =>
      if jFalsy prData || !jTypeofObject prData
          || !jTruthyOpt (jGetField prData "suggestedBranchName")
          || !jTruthyOpt (jGetField prData "prTitle")
          || !jTruthyOpt (jGetField prData "prDescription") then
        { prStop PROutcome.errParsePR with
          suggestionModelCalled := true, suggestionDiffPaths := diffPaths }
      else
        let sugg := jStringOf ((jGetField prData "suggestedBranchName").getD JValue.null)
        let title := jStringOf ((jGetField prData "prTitle").getD JValue.null)
        let desc := jStringOf ((jGetField prData "prDescription").getD JValue.null)
        if !env.createPRConfirm then
          prAccepted PROutcome.returnCreateDeclined sugg title desc diffPaths
        else
          let targetBranchName := jsRemoveOnce env.upstreamBranch "origin/"
          if currentBranch == targetBranchName && env.existingPR.isNone then
            if !env.createBranchConfirm then
              prAccepted PROutcome.returnBranchDeclined sugg title desc diffPaths
            else
              match env.checkoutResult with
              | Except.error _ =>
                prAccepted PROutcome.errCheckout sugg title desc diffPaths
              | Except.ok _ =>
                newPRPush env sugg title desc targetBranchName sugg (some sugg) diffPaths
          else
            newPRPush env sugg title desc targetBranchName currentBranch none diffPaths

/-- The existing-PR update path of `createAndPushPR` (create.ts lines
917-1140), after the user confirmed the update: plain push to the current
branch, then the optional title/description regeneration. -/
def updateExistingFlow (env : PREnv) (currentBranch : String) : PRResult :=
  match env.pushExistingResult with
  | Except.error _ =>
    { prStop PROutcome.errPushExisting with
      pushes := [("origin", currentBranch, false)] }
  | Except.ok _ =>
    let donePush : PRResult → PRResult := fun r =>
      { r with pushes := [("origin", currentBranch, false)] }
    let hasNewCommits :=
      (match env.prBranchCommits with
       | some l => decide (0 < l.length)
       | none => true)
      || env.commitsOptimizedInSession
      || env.commitsCreatedInSession
    if !hasNewCommits then donePush (prStop PROutcome.doneUpdatedExisting)
    else
      let offered : PRResult → PRResult := fun r =>
        donePush { r with updateOffered := true }
      if !env.updatePrDescription then
        offered (prStop PROutcome.doneUpdatedExisting)
      else
        -- current title/body fetch degrades silently on failure
        let recentPaths :=
          ((env.updateRecentChanges.getD []).filter
            (fun c => !excludedBy updateExcludePatterns c.path)).map
            RangeChange.path
        let regen : PRResult → PRResult := fun r =>
          offered { r with
                    updateModelCalled := true,
                    updateRecentPaths := recentPaths }
        match env.updateParse with
        | none => regen (prStop PROutcome.doneUpdatedExisting)
        | some d =>
          if !jTruthyOpt (jGetField d "updatedTitle")
              || !jTruthyOpt (jGetField d "updatedDescription") then
            regen (prStop PROutcome.doneUpdatedExisting)
          else
            let newTitle := jStringOf ((jGetField d "updatedTitle").getD JValue.null)
            let newDesc := jStringOf ((jGetField d "updatedDescription").getD JValue.null)
            if !env.confirmDescription then
              regen (prStop PROutcome.doneUpdatedExisting)
            else
              match env.prEditResult with
              | Except.ok _ =>
                regen { prStop PROutcome.doneUpdatedExisting with
                        prEdited := some (newTitle, newDesc) }
              | Except.error _ =>
                regen (prStop PROutcome.doneUpdatedExisting)

/-- Shallow embedding of `createAndPushPR` (create.ts, lines 862-1436):
existing-PR update with optional description regeneration, or new-PR
creation with model-suggested branch/title/description. -/
def createAndPushPR (env : PREnv) : PRResult :=
  if env.upstreamBranch = "" then prStop PROutcome.returnNoUpstream
  else
    match env.latestLog with
    | none => prStop PROutcome.errLatestCommit
    | some _latest =>
      match env.branchCurrent with
      | none => prStop PROutcome.errCurrentBranch
      | some currentBranch =>
        if currentBranch = "" then prStop PROutcome.errCurrentBranch
        else
          match env.existingPR with
          | some _pr =>
            if env.updateExistingPR then updateExistingFlow env currentBranch
            else newPRFlow env currentBranch
          | none => newPRFlow env currentBranch

/-! ## Concrete environments used to evaluate the embedding -/

/-- A run of the optimizer on a one-commit branch whose analysis reports the
message as already good. -/
def baseOptEnv : OptimizeEnv :=
  { upstreamBranch := "origin/main"
    logCommits := some [⟨"a1b2c3d", "fix: something"⟩]
    proceedWithOptimize := true
    notesShow := fun _ => none
    revListRaw := fun _ => some "a1b2c3d f0e1d2c"
    continueOptimization := true
    rangeChanges := some [⟨"src/app.ts", "+let x = 1"⟩]
    commitChanges := some [⟨"src/app.ts", "+let x = 1"⟩]
    analysisParse := some (JValue.obj
      [("needsImprovement", JValue.bool false), ("reason", JValue.str "fine")])
    amendConfirm := true
    amendRawResult := Except.ok ()
    notesAdd := fun _ => Except.ok () }

/-- The optimizer run on a head commit already bearing the provenance note. -/
def optEnvMarked : OptimizeEnv :=
  { baseOptEnv with notesShow := fun _ => some "created-by-pr-agent" }

/-- The optimizer run on a merge head commit (three rev-list tokens) that is
also provenance-marked. -/
def optEnvMarkedMerge : OptimizeEnv :=
  { baseOptEnv with
    notesShow := fun _ => some "created-by-pr-agent",
    revListRaw := fun _ => some "a1b2c3d f0e1d2c 9a8b7c6" }

/-- A second marked merge head, with distinct hashes. -/
def optEnvMarkedMergeB : OptimizeEnv :=
  { baseOptEnv with
    logCommits := some [⟨"deadbee", "Merge branch 'dev'"⟩],
    notesShow := fun _ => some "notes: created-by-pr-agent",
    revListRaw := fun _ => some "deadbee 1111111 2222222" }

/-- The optimizer run on an unmarked merge head commit. -/
def optEnvMerge : OptimizeEnv :=
  { baseOptEnv with revListRaw := fun _ => some "a1b2c3d f0e1d2c 9a8b7c6" }

/-- An uncommitted-changes run with a tracked source file and a lock file
modified, plus an untracked file, ending in a confirmed commit. -/
def baseUncEnv : UncommittedEnv :=
  { status := ⟨["src/app.ts", "pnpm-lock.yaml"], ["newfile.ts"], [], []⟩
    proceedWithAnalysis := true
    diffOk := fun _ => true
    stagedDiff := fun _ => ""
    unstagedDiff := fun _ => "+1"
    confirmAiRequest := true
    commitParse := some (JValue.obj [("commitMessage", JValue.str "feat: app change")])
    commitConfirm := true
    addResult := Except.ok ()
    commitResult := Except.ok "0badc0de"
    notesAdd := fun _ => Except.ok () }

/-- A new-PR run from the target branch, with a well-formed suggestion. -/
def basePREnv : PREnv :=
  { upstreamBranch := "origin/main"
    latestLog := some ⟨"a1b2c3d", "feat: add feature"⟩
    branchCurrent := some "main"
    existingPR := none
    updateExistingPR := false
    pushExistingResult := Except.ok ()
    prBranchCommits := some []
    commitsOptimizedInSession := false
    commitsCreatedInSession := false
    updatePrDescription := false
    prViewDetails := none
    updateRecentChanges := some []
    updateParse := none
    confirmDescription := false
    prEditResult := Except.ok ()
    generatePrDetails := true
    localBranches := some ["main", "feature-x"]
    prDiffChanges := some [⟨"src/app.ts", "+x"⟩]
    prParse := some (JValue.obj
      [("suggestedBranchName", JValue.str "feature-y"),
       ("prTitle", JValue.str "feat: y"),
       ("prDescription", JValue.str "## Summary")])
    createPRConfirm := true
    createBranchConfirm := true
    checkoutResult := Except.ok ()
    pushConfirm := true
    pushNewResult := Except.ok ()
    ghAvailable := true
    ghAuthenticated := true
    createGhPrConfirm := true
    ghCreateResult := Except.ok ()
    draft := false }

/-- A new-PR run whose upstream diff contains a lock file. -/
def prEnvLockDiff : PREnv :=
  { basePREnv with
    prDiffChanges := some [⟨"pnpm-lock.yaml", "+lock"⟩, ⟨"src/app.ts", "+x"⟩],
    prParse := none }

/-- A new-PR run whose suggested branch name equals an existing local branch. -/
def prEnvSuggestExisting : PREnv :=
  { basePREnv with
    prParse := some (JValue.obj
      [("suggestedBranchName", JValue.str "feature-x"),
       ("prTitle", JValue.str "feat: x"),
       ("prDescription", JValue.str "## Summary")]) }

/-- A new-PR run whose model response is not valid JSON. -/
def prEnvParseFail : PREnv :=
  { basePREnv with prParse := none }

/-- An existing-PR update run in which the upstream..HEAD log is empty but a
commit was optimized earlier in the session. -/
def prEnvExisting : PREnv :=
  { basePREnv with
    branchCurrent := some "feature-1",
    existingPR := some ⟨"https://example.invalid/pr/7", "7", "feat: one"⟩,
    updateExistingPR := true,
    prBranchCommits := some [],
    commitsOptimizedInSession := true }

/-! ## Helper lemmas -/

/-- Every `ignoredFiles` entry is matched by the optimization exclude list. -/
theorem ignored_matches_optimize_excludes {p : String} (h : p ∈ ignoredFiles) :
    excludedBy optimizeExcludePatterns p = true := by
  simp only [ignoredFiles, List.mem_cons, List.not_mem_nil, or_false] at h
  rcases h with rfl | rfl | rfl | rfl <;> decide

/-- Every `ignoredFiles` entry is matched by the update-path exclude list. -/
theorem ignored_matches_update_excludes {p : String} (h : p ∈ ignoredFiles) :
    excludedBy updateExcludePatterns p = true := by
  simp only [ignoredFiles, List.mem_cons, List.not_mem_nil, or_false] at h
  rcases h with rfl | rfl | rfl | rfl <;> decide

/-- Membership in the filtered modified-file list implies membership in
`status.modified` and absence from `ignoredFiles`. -/
theorem mem_modifiedFilesOf {f : String} {st : StatusResult}
    (h : f ∈ modifiedFilesOf st) : f ∈ st.modified ∧ f ∉ ignoredFiles := by
  unfold modifiedFilesOf at h
  rw [List.mem_filter] at h
  refine ⟨h.1, ?_⟩
  have h2 := h.2
  simp only [Bool.and_eq_true, bne_iff_ne, ne_eq, Bool.not_eq_true'] at h2
  intro hmem
  have : ignoredFiles.contains f = true := by simpa using hmem
  rw [this] at h2
  exact absurd h2.2 (by decide)

/-- Every file whose diff enters the uncommitted-changes prompt is a
non-ignored modified file. -/
theorem handleUncommitted_promptFiles_sound (env : UncommittedEnv) :
    ∀ f ∈ (handleUncommittedChanges env).promptFiles,
      f ∈ env.status.modified ∧ f ∉ ignoredFiles := by
  intro f hf
  unfold handleUncommittedChanges at hf
  repeat' split at hf <;> (try simp only [uncStop] at hf)
  all_goals
    first
    | exact absurd hf (List.not_mem_nil f)
    | exact mem_modifiedFilesOf (List.mem_filter.mp hf).1

/-- Analysis-stage version: every path in the upstream..HEAD diff survives
the exclude pathspecs, hence is not an ignored file. -/
theorem optimizeAnalyze_fullDiffPaths_sound (env : OptimizeEnv) (lastCommit : Commit) :
    ∀ p ∈ (optimizeAnalyze env lastCommit).fullDiffPaths, p ∉ ignoredFiles := by
  intro p hp
  unfold optimizeAnalyze at hp
  repeat' split at hp <;> (try simp only [optStop] at hp)
  all_goals
    first
    | exact absurd hp (List.not_mem_nil p)
    | · obtain ⟨c, hc, rfl⟩ := List.mem_map.mp hp
        have hnotex := (List.mem_filter.mp hc).2
        rw [Bool.not_eq_true'] at hnotex
        intro hmem
        rw [ignored_matches_optimize_excludes hmem] at hnotex
        cases hnotex

/-- Analysis-stage version: every path in the single-commit diff survives
the exclude pathspecs, hence is not an ignored file. -/
theorem optimizeAnalyze_commitDiffPaths_sound (env : OptimizeEnv) (lastCommit : Commit) :
    ∀ p ∈ (optimizeAnalyze env lastCommit).commitDiffPaths, p ∉ ignoredFiles := by
  intro p hp
  unfold optimizeAnalyze at hp
  repeat' split at hp <;> (try simp only [optStop] at hp)
  all_goals
    first
    | exact absurd hp (List.not_mem_nil p)
    | · obtain ⟨c, hc, rfl⟩ := List.mem_map.mp hp
        have hnotex := (List.mem_filter.mp hc).2
        rw [Bool.not_eq_true'] at hnotex
        intro hmem
        rw [ignored_matches_optimize_excludes hmem] at hnotex
        cases hnotex

/-- Every path in the optimizer's upstream..HEAD diff is not an ignored
file. -/
theorem optimize_fullDiffPaths_sound (env : OptimizeEnv) :
    ∀ p ∈ (optimizeCommitMessages env).fullDiffPaths, p ∉ ignoredFiles := by
  intro p hp
  unfold optimizeCommitMessages at hp
  repeat' split at hp <;> (try simp only [optStop] at hp)
  all_goals
    first
    | exact absurd hp (List.not_mem_nil p)
    | exact optimizeAnalyze_fullDiffPaths_sound env _ p hp

/-- Every path in the optimizer's single-commit diff is not an ignored
file. -/
theorem optimize_commitDiffPaths_sound (env : OptimizeEnv) :
    ∀ p ∈ (optimizeCommitMessages env).commitDiffPaths, p ∉ ignoredFiles := by
  intro p hp
  unfold optimizeCommitMessages at hp
  repeat' split at hp <;> (try simp only [optStop] at hp)
  all_goals
    first
    | exact absurd hp (List.not_mem_nil p)
    | exact optimizeAnalyze_commitDiffPaths_sound env _ p hp

/-- The new-PR flow never records recent-changes paths. -/
theorem newPRPush_updateRecentPaths (env : PREnv)
    (sugg title desc targetBranchName branchToPush : String)
    (created : Option String) (diffPaths : List String) :
    (newPRPush env sugg title desc targetBranchName branchToPush created
      diffPaths).updateRecentPaths = [] := by
  unfold newPRPush
  repeat' split
  all_goals rfl

/-- The new-PR flow never records recent-changes paths. -/
theorem newPRFlow_updateRecentPaths (env : PREnv) (currentBranch : String) :
    (newPRFlow env currentBranch).updateRecentPaths = [] := by
  unfold newPRFlow
  repeat'
    first
    | rfl
    | apply newPRPush_updateRecentPaths
    | split
    | dsimp only

/-- Update-flow version: every path in the recent-changes diff survives its
exclude pathspecs, hence is not an ignored file. -/
theorem updateExistingFlow_updateRecentPaths_sound (env : PREnv) (currentBranch : String) :
    ∀ p ∈ (updateExistingFlow env currentBranch).updateRecentPaths, p ∉ ignoredFiles := by
  intro p hp
  unfold updateExistingFlow at hp
  repeat' split at hp <;> (try simp only [prStop] at hp)
  all_goals
    first
    | exact absurd hp (List.not_mem_nil p)
    | · obtain ⟨c, hc, rfl⟩ := List.mem_map.mp hp
        have hnotex := (List.mem_filter.mp hc).2
        rw [Bool.not_eq_true'] at hnotex
        intro hmem
        rw [ignored_matches_update_excludes hmem] at hnotex
        cases hnotex

/-- Every path in the recent-changes diff of the existing-PR description
update is not an ignored file. -/
theorem createPR_updateRecentPaths_sound (env : PREnv) :
    ∀ p ∈ (createAndPushPR env).updateRecentPaths, p ∉ ignoredFiles := by
  intro p hp
  unfold createAndPushPR at hp
  repeat' split at hp <;> (try simp only [prStop] at hp)
  all_goals
    first
    | exact absurd hp (List.not_mem_nil p)
    | exact updateExistingFlow_updateRecentPaths_sound env _ p hp
    | · rw [newPRFlow_updateRecentPaths] at hp
        exact absurd hp (List.not_mem_nil p)

/-- On the new-PR push tail, the accepted suggestion triple is preserved in
every outcome. -/
theorem newPRPush_acceptedSuggestion (env : PREnv)
    (sugg title desc targetBranchName branchToPush : String)
    (created : Option String) (diffPaths : List String) :
    (newPRPush env sugg title desc targetBranchName branchToPush created
      diffPaths).acceptedSuggestion = some (sugg, title, desc) := by
  unfold newPRPush
  repeat' split
  all_goals rfl

/-- When the model's new-PR response parses to an object with the three
string fields non-empty, the flow accepts exactly that triple — with no
check of the branch name against the local-branch exclusions. -/
theorem newPRFlow_accepts (env : PREnv) (cb s t d : String)
    (hgen : env.generatePrDetails = true)
    (hparse : env.prParse = some (JValue.obj
      [("suggestedBranchName", JValue.str s), ("prTitle", JValue.str t),
       ("prDescription", JValue.str d)]))
    (hs : ¬s = "") (ht : ¬t = "") (hd : ¬d = "") :
    (newPRFlow env cb).acceptedSuggestion = some (s, t, d) := by
  unfold newPRFlow
  rw [hparse]
  simp only [hgen, Bool.not_true, Bool.false_eq_true, if_false,
    jGetField, List.lookup, jTruthyOpt, jTruthy, jFalsy, jTypeofObject,
    jStringOf, Option.getD_some]
  repeat'
    first
    | rfl
    | apply newPRPush_acceptedSuggestion
    | split
    | dsimp only
  all_goals simp_all [prAccepted, jStringOf]

/-- A failed or invalid new-PR model response aborts the flow: no branch, no
PR, no manual instructions. -/
theorem newPRFlow_parse_failure (env : PREnv) (cb : String)
    (hgen : env.generatePrDetails = true)
    (hbad : ∀ v, env.prParse = some v →
      (jFalsy v || !jTypeofObject v
        || !jTruthyOpt (jGetField v "suggestedBranchName")
        || !jTruthyOpt (jGetField v "prTitle")
        || !jTruthyOpt (jGetField v "prDescription")) = true) :
    (newPRFlow env cb).outcome = PROutcome.errParsePR ∧
    (newPRFlow env cb).branchCreated = none ∧
    (newPRFlow env cb).prCreated = none ∧
    (newPRFlow env cb).manualPrinted = false ∧
    (newPRFlow env cb).suggestionModelCalled = true := by
  unfold newPRFlow
  cases hparse : env.prParse with
  | none => simp [hgen, hparse, prStop]
  | some v =>
    have hv := hbad v hparse
    simp [hgen, hparse, hv, prStop]

/-- The confirmed existing-PR update performs exactly one plain push of the
current branch and creates no local branch. -/
theorem updateExistingFlow_plain_push (env : PREnv) (cb : String) :
    (updateExistingFlow env cb).pushes = [("origin", cb, false)] ∧
    (updateExistingFlow env cb).branchCreated = none := by
  unfold updateExistingFlow
  repeat'
    first
    | exact ⟨rfl, rfl⟩
    | split
    | dsimp only

/-- On the confirmed existing-PR update, a successful push plus the
session's optimized-commits flag always yields the regeneration offer. -/
theorem updateExistingFlow_offers_when_flag (env : PREnv) (cb : String)
    (hpush : env.pushExistingResult = Except.ok ())
    (hflag : env.commitsOptimizedInSession = true) :
    (updateExistingFlow env cb).updateOffered = true := by
  unfold updateExistingFlow
  rw [hpush]
  simp only [hflag, Bool.or_true, Bool.true_or, Bool.not_true,
    Bool.false_eq_true, if_false]
  repeat' split
  all_goals rfl

/-- Analysis-stage behaviour when the model reports no improvement needed:
the head commit is marked, the session flag is set, and nothing is amended. -/
theorem optimizeAnalyze_no_improvement (env : OptimizeEnv) (c : Commit)
    (rc : List RangeChange) (a : JValue)
    (hrc : env.rangeChanges = some rc)
    (hparse : env.analysisParse = some a)
    (hobj : (jFalsy a || !jTypeofObject a) = false)
    (hni : jTruthyOpt (jGetField a "needsImprovement") = false) :
    (optimizeAnalyze env c).markAttempts = [c.hash] ∧
    (optimizeAnalyze env c).commitsOptimizedInSession = true ∧
    (optimizeAnalyze env c).amendRan = false ∧
    (optimizeAnalyze env c).outcome = OptOutcome.skippedModel := by
  unfold optimizeAnalyze
  rw [hrc, hparse]
  simp [hobj, hni, optStop]

/-- The analysis stage behaves identically under any `git notes add`
outcome, except for which notes actually persisted. -/
theorem optimizeAnalyze_notesAdd_frame (env : OptimizeEnv)
    (f g : String → Except String Unit) (c : Commit) :
    optimizeAnalyze { env with notesAdd := f } c =
    { optimizeAnalyze { env with notesAdd := g } c with
      notesWritten := (optimizeAnalyze { env with notesAdd := f } c).notesWritten } := by
  obtain ⟨u, lc, pw, ns, rv, co, rc, cc, ap, ac, ar, na⟩ := env
  unfold optimizeAnalyze
  dsimp only
  repeat' split
  all_goals rfl

/-- The whole optimization run behaves identically under any `git notes add`
outcome, except for which notes actually persisted. -/
theorem optimize_notesAdd_frame (env : OptimizeEnv)
    (f g : String → Except String Unit) :
    optimizeCommitMessages { env with notesAdd := f } =
    { optimizeCommitMessages { env with notesAdd := g } with
      notesWritten := (optimizeCommitMessages { env with notesAdd := f }).notesWritten } := by
  obtain ⟨u, lc, pw, ns, rv, co, rc, cc, ap, ac, ar, na⟩ := env
  unfold optimizeCommitMessages
  dsimp only
  repeat' split
  all_goals
    first
    | rfl
    | exact optimizeAnalyze_notesAdd_frame ⟨u, _, pw, ns, rv, co, rc, cc, ap, ac, ar, g⟩ f g _

/-! ## Claims -/

/-- C1 (counterexample): on the new-PR path the upstream..HEAD diff embedded
in the branch/title/description prompt is collected with no exclude
pathspecs, so an `IgnoreSet` path (`pnpm-lock.yaml`) appears among the paths
of a diff sent to the completion provider. -/
theorem C1_counterexample :
    (createAndPushPR prEnvLockDiff).suggestionModelCalled = true ∧
    "pnpm-lock.yaml" ∈ (createAndPushPR prEnvLockDiff).suggestionDiffPaths ∧
    "pnpm-lock.yaml" ∈ ignoredFiles := by decide

/-- C1 (amended): no `IgnoreSet` path ever appears in the diffs sent to the
model by the uncommitted-change analysis, by the commit-message optimization
(range and single-commit diffs), or by the existing-PR recent-changes diff;
the new-PR suggestion diff is exempt because it is collected with no
exclusions. -/
theorem C1_ignore_set_applied_except_new_pr_diff :
    (∀ (env : UncommittedEnv) (f : String),
      f ∈ (handleUncommittedChanges env).promptFiles → f ∉ ignoredFiles) ∧
    (∀ (env : OptimizeEnv) (p : String),
      p ∈ (optimizeCommitMessages env).fullDiffPaths → p ∉ ignoredFiles) ∧
    (∀ (env : OptimizeEnv) (p : String),
      p ∈ (optimizeCommitMessages env).commitDiffPaths → p ∉ ignoredFiles) ∧
    (∀ (env : PREnv) (p : String),
      p ∈ (createAndPushPR env).updateRecentPaths → p ∉ ignoredFiles) :=
  ⟨fun env f hf => (handleUncommitted_promptFiles_sound env f hf).2,
   fun env p hp => optimize_fullDiffPaths_sound env p hp,
   fun env p hp => optimize_commitDiffPaths_sound env p hp,
   fun env p hp => createPR_updateRecentPaths_sound env p hp⟩

/-- C1 (witness): the amended theorem applied to a concrete run whose prompt
contains `src/app.ts`. -/
theorem C1_witness : "src/app.ts" ∉ ignoredFiles :=
  C1_ignore_set_applied_except_new_pr_diff.1 baseUncEnv "src/app.ts" (by decide)

/-- C2: when the most recent commit of the resolved range already bears the
provenance mark, the optimization is a no-op — no completion request, no
amend, and no further mark attempt. -/
theorem C2_marked_head_is_noop (env : OptimizeEnv) (c : Commit) (cs : List Commit)
    (hlog : env.logCommits = some (c :: cs))
    (hmarked : isCommitCreatedByTool env.notesShow c.hash = true) :
    (optimizeCommitMessages env).modelCalled = false ∧
    (optimizeCommitMessages env).amendRan = false ∧
    (optimizeCommitMessages env).markAttempts = [] := by
  have hhash : ¬c.hash = "" := by
    intro h
    rw [isCommitCreatedByTool, if_pos h] at hmarked
    cases hmarked
  unfold optimizeCommitMessages
  rw [hlog]
  by_cases h1 : env.upstreamBranch = ""
  · simp [h1, optStop]
  · by_cases h2 : env.proceedWithOptimize = true
    · simp [h1, h2, hhash, hmarked, optStop]
    · rw [Bool.not_eq_true] at h2
      simp [h1, h2, optStop]

/-- C2 (witness): the theorem applied to a concrete marked head commit. -/
theorem C2_witness :
    (optimizeCommitMessages optEnvMarked).modelCalled = false ∧
    (optimizeCommitMessages optEnvMarked).amendRan = false ∧
    (optimizeCommitMessages optEnvMarked).markAttempts = [] :=
  C2_marked_head_is_noop optEnvMarked ⟨"a1b2c3d", "fix: something"⟩ [] rfl (by decide)

/-- C3 (counterexample): a merge head commit (three rev-list tokens) that is
already provenance-marked is skipped with reason already-processed, not with
reason merge — refuting the claim for arbitrary merge commits. -/
theorem C3_counterexample :
    (jsSplitSpace (strTrim ((optEnvMarkedMerge.revListRaw "a1b2c3d").getD ""))).length > 2 ∧
    (optimizeCommitMessages optEnvMarkedMerge).outcome = OptOutcome.skippedAlreadyProcessed ∧
    (optimizeCommitMessages optEnvMarkedMerge).outcome ≠ OptOutcome.skippedMerge := by
  decide

/-- C3 (amended): for a most-recent commit with more than one parent that is
not already provenance-marked, optimization is skipped with reason merge,
regardless of diff content, and no completion request is issued. -/
theorem C3_unmarked_merge_skipped (env : OptimizeEnv) (c : Commit)
    (cs : List Commit) (s : String)
    (hup : ¬env.upstreamBranch = "")
    (hlog : env.logCommits = some (c :: cs))
    (hpro : env.proceedWithOptimize = true)
    (hhash : ¬c.hash = "")
    (hunmarked : isCommitCreatedByTool env.notesShow c.hash = false)
    (hrev : env.revListRaw c.hash = some s)
    (hs : ¬s = "")
    (hmerge : (jsSplitSpace (strTrim s)).length > 2) :
    (optimizeCommitMessages env).outcome = OptOutcome.skippedMerge ∧
    (optimizeCommitMessages env).modelCalled = false ∧
    (optimizeCommitMessages env).amendRan = false := by
  have h0 : ¬(jsSplitSpace (strTrim s)).length = 0 := by omega
  unfold optimizeCommitMessages
  rw [hlog]
  simp [hup, hpro, hhash, hunmarked, hrev, hs, h0, hmerge, optStop]

/-- C3 (witness): the amended theorem applied to a concrete unmarked merge
head commit. -/
theorem C3_witness :
    (optimizeCommitMessages optEnvMerge).outcome = OptOutcome.skippedMerge ∧
    (optimizeCommitMessages optEnvMerge).modelCalled = false ∧
    (optimizeCommitMessages optEnvMerge).amendRan = false :=
  C3_unmarked_merge_skipped optEnvMerge ⟨"a1b2c3d", "fix: something"⟩ []
    "a1b2c3d f0e1d2c 9a8b7c6" (by decide) rfl rfl (by decide) (by decide) rfl
    (by decide) (by decide)

/-- C4 (counterexample): the optimizer checks provenance before the merge
check — a head commit that is both a merge commit and provenance-marked is
skipped with reason already-processed, not via the merge transition. -/
theorem C4_counterexample :
    (jsSplitSpace (strTrim ((optEnvMarkedMergeB.revListRaw "deadbee").getD ""))).length > 2 ∧
    isCommitCreatedByTool optEnvMarkedMergeB.notesShow "deadbee" = true ∧
    (optimizeCommitMessages optEnvMarkedMergeB).outcome = OptOutcome.skippedAlreadyProcessed ∧
    (optimizeCommitMessages optEnvMarkedMergeB).outcome ≠ OptOutcome.skippedMerge := by
  decide

/-- C4 (amended): the provenance check precedes the merge check — for a
most-recent commit that is both a merge commit and already marked, the run
terminates as skipped with reason already-processed and no completion
request is issued. -/
theorem C4_provenance_before_merge (env : OptimizeEnv) (c : Commit)
    (cs : List Commit) (s : String)
    (hup : ¬env.upstreamBranch = "")
    (hlog : env.logCommits = some (c :: cs))
    (hpro : env.proceedWithOptimize = true)
    (hmarked : isCommitCreatedByTool env.notesShow c.hash = true)
    (_hrev : env.revListRaw c.hash = some s)
    (_hmerge : (jsSplitSpace (strTrim s)).length > 2) :
    (optimizeCommitMessages env).outcome = OptOutcome.skippedAlreadyProcessed ∧
    (optimizeCommitMessages env).modelCalled = false := by
  have hhash : ¬c.hash = "" := by
    intro h
    rw [isCommitCreatedByTool, if_pos h] at hmarked
    cases hmarked
  unfold optimizeCommitMessages
  rw [hlog]
  simp [hup, hpro, hhash, hmarked, optStop]

/-- C4 (witness): the amended theorem applied to a concrete marked merge
head commit. -/
theorem C4_witness :
    (optimizeCommitMessages optEnvMarkedMergeB).outcome = OptOutcome.skippedAlreadyProcessed ∧
    (optimizeCommitMessages optEnvMarkedMergeB).modelCalled = false :=
  C4_provenance_before_merge optEnvMarkedMergeB ⟨"deadbee", "Merge branch 'dev'"⟩ []
    "deadbee 1111111 2222222" (by decide) rfl rfl (by decide) rfl (by decide)

/-- C5 (counterexample): a model response whose suggested branch name equals
an existing local branch supplied as an exclusion is accepted, used to
create the branch, and the PR is created — the exclusion list is not
enforced. -/
theorem C5_counterexample :
    (createAndPushPR prEnvSuggestExisting).acceptedSuggestion =
      some ("feature-x", "feat: x", "## Summary") ∧
    "feature-x" ∈ localBranchNamesOf prEnvSuggestExisting ∧
    (createAndPushPR prEnvSuggestExisting).branchCreated = some "feature-x" := by
  decide

/-- C5 (amended): the existing local branch names are supplied to the model
only inside the prompt; the code never validates the returned name against
them — a suggestion equal to an existing local branch is accepted
unchanged. -/
theorem C5_exclusions_not_enforced (env : PREnv) (lc : Commit) (cb s t d : String)
    (hup : ¬env.upstreamBranch = "")
    (hlatest : env.latestLog = some lc)
    (hbr : env.branchCurrent = some cb)
    (hcb : ¬cb = "")
    (hnoex : env.existingPR = none)
    (hgen : env.generatePrDetails = true)
    (hparse : env.prParse = some (JValue.obj
      [("suggestedBranchName", JValue.str s), ("prTitle", JValue.str t),
       ("prDescription", JValue.str d)]))
    (hs : ¬s = "") (ht : ¬t = "") (hd : ¬d = "")
    (_hmem : s ∈ localBranchNamesOf env) :
    (createAndPushPR env).acceptedSuggestion = some (s, t, d) := by
  unfold createAndPushPR
  rw [hlatest, hbr, hnoex]
  simp only [if_neg hup, if_neg hcb]
  exact newPRFlow_accepts env cb s t d hgen hparse hs ht hd

/-- C5 (witness): the amended theorem applied to a run whose suggestion
equals the existing local branch `feature-x`. -/
theorem C5_witness :
    (createAndPushPR prEnvSuggestExisting).acceptedSuggestion =
      some ("feature-x", "feat: x", "## Summary") :=
  C5_exclusions_not_enforced prEnvSuggestExisting ⟨"a1b2c3d", "feat: add feature"⟩
    "main" "feature-x" "feat: x" "## Summary" (by decide) rfl rfl (by decide) rfl rfl
    rfl (by decide) (by decide) (by decide) (by decide)

/-- C6: on the new-PR path, a model response that fails to parse or lacks
any of the three required fields is a hard failure: no branch is created, no
PR is created, and manual instructions are not printed. -/
theorem C6_parse_failure_is_hard (env : PREnv) (lc : Commit) (cb : String)
    (hup : ¬env.upstreamBranch = "")
    (hlatest : env.latestLog = some lc)
    (hbr : env.branchCurrent = some cb)
    (hcb : ¬cb = "")
    (hpath : env.existingPR = none ∨ env.updateExistingPR = false)
    (hgen : env.generatePrDetails = true)
    (hbad : ∀ v, env.prParse = some v →
      (jFalsy v || !jTypeofObject v
        || !jTruthyOpt (jGetField v "suggestedBranchName")
        || !jTruthyOpt (jGetField v "prTitle")
        || !jTruthyOpt (jGetField v "prDescription")) = true) :
    (createAndPushPR env).outcome = PROutcome.errParsePR ∧
    (createAndPushPR env).branchCreated = none ∧
    (createAndPushPR env).prCreated = none ∧
    (createAndPushPR env).manualPrinted = false ∧
    (createAndPushPR env).suggestionModelCalled = true := by
  have key := newPRFlow_parse_failure env cb hgen hbad
  unfold createAndPushPR
  rw [hlatest, hbr]
  rcases hpath with h | h
  · rw [h]
    simp only [if_neg hup, if_neg hcb]
    exact key
  · cases hex : env.existingPR with
    | none =>
      simp only [if_neg hup, if_neg hcb]
      exact key
    | some pr =>
      simp only [if_neg hup, if_neg hcb, h, Bool.false_eq_true, if_false]
      exact key

/-- C6 (witness): the theorem applied to a run whose model response is not
valid JSON. -/
theorem C6_witness :
    (createAndPushPR prEnvParseFail).outcome = PROutcome.errParsePR ∧
    (createAndPushPR prEnvParseFail).branchCreated = none ∧
    (createAndPushPR prEnvParseFail).prCreated = none ∧
    (createAndPushPR prEnvParseFail).manualPrinted = false ∧
    (createAndPushPR prEnvParseFail).suggestionModelCalled = true :=
  C6_parse_failure_is_hard prEnvParseFail ⟨"a1b2c3d", "feat: add feature"⟩ "main"
    (by decide) rfl rfl (by decide) (Or.inl rfl) rfl
    (fun v h => Option.noConfusion h)

/-- C7: `markCommitAsCreatedByTool` never raises to its caller, and the
optimization workflow is unchanged by any notes-write outcome (apart from
which notes persisted). -/
theorem C7_mark_never_raises :
    (∀ (r : Except String Unit) (h : String),
      (markCommitAsCreatedByTool r h).isOk = true) ∧
    (∀ (env : OptimizeEnv) (f g : String → Except String Unit),
      (optimizeCommitMessages { env with notesAdd := f }).outcome =
        (optimizeCommitMessages { env with notesAdd := g }).outcome ∧
      (optimizeCommitMessages { env with notesAdd := f }).amendRan =
        (optimizeCommitMessages { env with notesAdd := g }).amendRan ∧
      (optimizeCommitMessages { env with notesAdd := f }).markAttempts =
        (optimizeCommitMessages { env with notesAdd := g }).markAttempts ∧
      (optimizeCommitMessages { env with notesAdd := f }).commitsOptimizedInSession =
        (optimizeCommitMessages { env with notesAdd := g }).commitsOptimizedInSession) := by
  constructor
  · intro r h
    unfold markCommitAsCreatedByTool
    split
    · rfl
    · split <;> rfl
  · intro env f g
    refine ⟨?_, ?_, ?_, ?_⟩ <;> rw [optimize_notesAdd_frame env f g]

/-- C7 (witness): the theorem applied to a failing notes write and to the
concrete optimizer run. -/
theorem C7_witness :
    (markCommitAsCreatedByTool (Except.error "nope") "a1b2c3d").isOk = true ∧
    (optimizeCommitMessages { baseOptEnv with notesAdd := fun _ => Except.error "nope" }).outcome =
      (optimizeCommitMessages { baseOptEnv with notesAdd := fun _ => Except.ok () }).outcome :=
  ⟨C7_mark_never_raises.1 (Except.error "nope") "a1b2c3d",
   (C7_mark_never_raises.2 baseOptEnv (fun _ => Except.error "nope")
     (fun _ => Except.ok ())).1⟩

/-- C8: on the confirmed existing-PR update, the current branch is pushed
once with a plain push — no set-upstream flag, and no local branch is
created or checked out. -/
theorem C8_existing_pr_plain_push (env : PREnv) (lc : Commit) (cb : String) (pr : PRInfo)
    (hup : ¬env.upstreamBranch = "")
    (hlatest : env.latestLog = some lc)
    (hbr : env.branchCurrent = some cb)
    (hcb : ¬cb = "")
    (hex : env.existingPR = some pr)
    (hupd : env.updateExistingPR = true) :
    (createAndPushPR env).pushes = [("origin", cb, false)] ∧
    (createAndPushPR env).branchCreated = none := by
  unfold createAndPushPR
  rw [hlatest, hbr, hex]
  simp only [if_neg hup, if_neg hcb, hupd, if_true]
  exact updateExistingFlow_plain_push env cb

/-- C8 (witness): the theorem applied to a concrete confirmed existing-PR
update. -/
theorem C8_witness :
    (createAndPushPR prEnvExisting).pushes = [("origin", "feature-1", false)] ∧
    (createAndPushPR prEnvExisting).branchCreated = none :=
  C8_existing_pr_plain_push prEnvExisting ⟨"a1b2c3d", "feat: add feature"⟩ "feature-1"
    ⟨"https://example.invalid/pr/7", "7", "feat: one"⟩ (by decide) rfl rfl (by decide)
    rfl rfl

/-- C9: when the optimizer's analysis parses to an object with
needsImprovement false, the head commit is provenance-marked, nothing is
amended, the session flag is set, and — carried into the existing-PR update
— the description-regeneration offer is made even with an empty
upstream..HEAD log. -/
theorem C9_no_improvement_marks_and_offers (env : OptimizeEnv) (c : Commit)
    (cs : List Commit) (s : String) (rc : List RangeChange) (a : JValue)
    (hup : ¬env.upstreamBranch = "")
    (hlog : env.logCommits = some (c :: cs))
    (hpro : env.proceedWithOptimize = true)
    (hhash : ¬c.hash = "")
    (hunmarked : isCommitCreatedByTool env.notesShow c.hash = false)
    (hrev : env.revListRaw c.hash = some s)
    (hs : ¬s = "")
    (hlen : (jsSplitSpace (strTrim s)).length = 2)
    (hcont : env.continueOptimization = true)
    (hrc : env.rangeChanges = some rc)
    (hparse : env.analysisParse = some a)
    (hobj : (jFalsy a || !jTypeofObject a) = false)
    (hni : jTruthyOpt (jGetField a "needsImprovement") = false)
    (prEnv : PREnv) (lc : Commit) (cb : String) (pr : PRInfo)
    (hup2 : ¬prEnv.upstreamBranch = "")
    (hlatest : prEnv.latestLog = some lc)
    (hbr : prEnv.branchCurrent = some cb)
    (hcb : ¬cb = "")
    (hex : prEnv.existingPR = some pr)
    (hupd : prEnv.updateExistingPR = true)
    (hpush : prEnv.pushExistingResult = Except.ok ())
    (hflag : prEnv.commitsOptimizedInSession =
      (optimizeCommitMessages env).commitsOptimizedInSession) :
    (optimizeCommitMessages env).markAttempts = [c.hash] ∧
    (optimizeCommitMessages env).amendRan = false ∧
    (optimizeCommitMessages env).commitsOptimizedInSession = true ∧
    (createAndPushPR prEnv).updateOffered = true := by
  have hred : optimizeCommitMessages env = optimizeAnalyze env c := by
    unfold optimizeCommitMessages
    rw [hlog]
    simp [hup, hpro, hhash, hunmarked, hrev, hs, hlen, hcont]
  have hana := optimizeAnalyze_no_improvement env c rc a hrc hparse hobj hni
  rw [hred] at hflag ⊢
  refine ⟨hana.1, hana.2.2.1, hana.2.1, ?_⟩
  have hflag2 : prEnv.commitsOptimizedInSession = true := by
    rw [hflag, hana.2.1]
  unfold createAndPushPR
  rw [hlatest, hbr, hex]
  simp only [if_neg hup2, if_neg hcb, hupd, if_true]
  exact updateExistingFlow_offers_when_flag prEnv cb hpush hflag2

/-- C9 (witness): the theorem applied to the concrete
no-improvement-then-update run. -/
theorem C9_witness :
    (optimizeCommitMessages baseOptEnv).markAttempts = ["a1b2c3d"] ∧
    (optimizeCommitMessages baseOptEnv).amendRan = false ∧
    (optimizeCommitMessages baseOptEnv).commitsOptimizedInSession = true ∧
    (createAndPushPR prEnvExisting).updateOffered = true :=
  C9_no_improvement_marks_and_offers baseOptEnv ⟨"a1b2c3d", "fix: something"⟩ []
    "a1b2c3d f0e1d2c" [⟨"src/app.ts", "+let x = 1"⟩]
    (JValue.obj [("needsImprovement", JValue.bool false), ("reason", JValue.str "fine")])
    (by decide) rfl rfl (by decide) (by decide) rfl (by decide) (by decide) rfl rfl rfl
    (by decide) (by decide)
    prEnvExisting ⟨"a1b2c3d", "feat: add feature"⟩ "feature-1"
    ⟨"https://example.invalid/pr/7", "7", "feat: one"⟩
    (by decide) rfl rfl (by decide) rfl rfl rfl (by decide)

/-- C10: when the user confirms the suggested commit message, the entire
working tree is staged with git add of the current directory, while only
non-ignored paths from status.modified were ever diffed for the prompt. -/
theorem C10_stage_all_prompt_modified_only (env : UncommittedEnv) (m : String)
    (hpro : env.proceedWithAnalysis = true)
    (hne : ¬((modifiedFilesOf env.status).filter env.diffOk).length = 0)
    (hai : env.confirmAiRequest = true)
    (hparse : env.commitParse = some (JValue.obj [("commitMessage", JValue.str m)]))
    (hm : ¬m = "")
    (hcc : env.commitConfirm = true) :
    (handleUncommittedChanges env).stagedAll = true ∧
    (∀ f ∈ (handleUncommittedChanges env).promptFiles,
      f ∈ env.status.modified ∧ f ∉ ignoredFiles) := by
  refine ⟨?_, handleUncommitted_promptFiles_sound env⟩
  have hne0 : ¬(modifiedFilesOf env.status).length = 0 := by
    intro h
    have hle := List.length_filter_le env.diffOk (modifiedFilesOf env.status)
    omega
  unfold handleUncommittedChanges
  rw [hparse]
  simp only [hpro, hai, hcc, hne, hne0, hm, Bool.not_true, Bool.false_eq_true,
    if_false, ite_false, jGetField, List.lookup, jTruthyOpt, jTruthy, jFalsy,
    jStringOf, Option.getD_some]
  repeat'
    first
    | rfl
    | split
    | dsimp only
  all_goals simp_all [uncStop]

/-- C10 (witness): the theorem applied to the concrete dirty-tree run. -/
theorem C10_witness :
    (handleUncommittedChanges baseUncEnv).stagedAll = true ∧
    (∀ f ∈ (handleUncommittedChanges baseUncEnv).promptFiles,
      f ∈ baseUncEnv.status.modified ∧ f ∉ ignoredFiles) :=
  C10_stage_all_prompt_modified_only baseUncEnv "feat: app change"
    rfl (by decide) rfl rfl (by decide) rfl

end PrAgent
